import Mathlib

/-!
Shallow embedding of the WinFuse transaction bridge from
src/winfuse/fuse.c and src/winfuse/driver.c.

NTSTATUS values are natural numbers below 2^32; NT_SUCCESS is the sign
test of the signed 32-bit value.  Components that live in headers or
files outside src/ (the FUSE_CONTEXT status-pointer encoding of
winfuse/driver.h, the protocol size constants of winfuse/proto.h, the
correlation queue FUSE_IOQ, the side channel FuseSendTransactInternalIrp
and the errno table winfuse/errno.i) are modelled from the spec where
their doc comments say so.  External calls made during one exchange call
are resolved through an explicit environment record, and the observable
actions of a call are collected in an event trace.
-/

namespace WinFuse

/-- NTSTATUS constants used by fuse.c, with their Windows DDK values. -/
def STATUS_SUCCESS : Nat := 0

def STATUS_TIMEOUT : Nat := 0x00000102

def STATUS_INVALID_PARAMETER : Nat := 0xC000000D

def STATUS_INVALID_DEVICE_REQUEST : Nat := 0xC0000010

def STATUS_ACCESS_DENIED : Nat := 0xC0000022

def STATUS_BUFFER_TOO_SMALL : Nat := 0xC0000023

def STATUS_THREAD_IS_TERMINATING : Nat := 0xC000004B

def STATUS_INSUFFICIENT_RESOURCES : Nat := 0xC000009A

def STATUS_CANCELLED : Nat := 0xC0000120

/-- NT_SUCCESS(Status): the signed 32-bit status value is nonnegative. -/
def NT_SUCCESS (s : Nat) : Bool := s < 0x80000000

/-- UINT32 minus one, the sentinel for permanently failed negotiation. -/
def UINT32_MAX : Nat := 0xFFFFFFFF

/-- Modelled from the spec: FspFsctlTransactReservedKind from the winfsp
header that src/ does not contain; the reserved/bootstrap operation kind. -/
def FspFsctlTransactReservedKind : Nat := 0

/-- Modelled from the spec: FspFsctlTransactKindCount from the winfsp
header; driver.c names twenty distinct kinds (Reserved through
QueryStreamInformation). -/
def FspFsctlTransactKindCount : Nat := 20

/-- Modelled from the spec: sizeof(struct fuse_out_header), the fixed
minimum FUSE response header size FUSE_PROTO_RSP_HEADER_SIZE. -/
def FUSE_PROTO_RSP_HEADER_SIZE : Nat := 16

/-- Modelled from the spec: sizeof(struct fuse_in_header), the FUSE
request header size FUSE_PROTO_REQ_HEADER_SIZE zeroed by the bridge. -/
def FUSE_PROTO_REQ_HEADER_SIZE : Nat := 40

/-- Modelled from the spec: FUSE_PROTO_REQ_SIZEMIN from winfuse/proto.h,
the fixed minimum output region size; only its relative use matters. -/
def FUSE_PROTO_REQ_SIZEMIN : Nat := 4096

/-- Modelled from the spec: sizeof(FSP_FSCTL_TRANSACT_RSP) from the
winfsp header, stored into InternalResponse->Size. -/
def SIZEOF_FSP_FSCTL_TRANSACT_RSP : Nat := 128

/-- FSP_FSCTL_TRANSACT_REQ as the bridge reads it: the operation kind
discriminant and the opaque correlation hint. -/
structure FSP_FSCTL_TRANSACT_REQ where
  Kind : Nat
  Hint : Nat
deriving DecidableEq, Repr

/-- FSP_FSCTL_TRANSACT_RSP as the bridge writes it: declared size, echoed
kind and hint, and the IoStatus.Status field. -/
structure FSP_FSCTL_TRANSACT_RSP where
  Size : Nat
  Kind : Nat
  Hint : Nat
  IoStatus : Nat
deriving DecidableEq, Repr

/-- FUSE_PROTO_RSP header fields the bridge reads: self-declared total
length and the unique correlation id. -/
structure FUSE_PROTO_RSP where
  len : Nat
  unique : Nat
deriving DecidableEq, Repr

/-- FUSE_PROTO_REQ header field the bridge reads back after dispatch: the
self-declared total length, reported as the output byte count. -/
structure FUSE_PROTO_REQ where
  len : Nat
deriving DecidableEq, Repr

/-- Real operation context: the FUSE_CONTEXT fields that fuse.c itself
touches.  InternalResponseEmbedded records whether InternalResponse still
points at the embedded InternalResponseBuf buffer; HasFini whether a
handler installed a finalize callback. -/
structure FUSE_CONTEXT where
  InternalRequest : Option FSP_FSCTL_TRANSACT_REQ
  InternalResponse : FSP_FSCTL_TRANSACT_RSP
  InternalResponseEmbedded : Bool
  HasFini : Bool
deriving DecidableEq, Repr

/-- Modelled from the spec (design note on the tagged context variant):
winfuse/driver.h, absent from src/, encodes an immediate status as a fake
context pointer via FuseContextStatus / FuseContextIsStatus /
FuseContextToStatus; the spec replaces that encoding by an explicit sum
of a real context and a bare status code. -/
inductive FuseContextOrStatus where
  | real (ctx : FUSE_CONTEXT)
  | status (code : Nat)
deriving DecidableEq, Repr

/-- FuseContextIsStatus on the tagged representation. -/
def FuseContextIsStatus : FuseContextOrStatus → Bool
  | .real _ => false
  | .status _ => true

/-- FuseContextToStatus on the tagged representation; meaningful only for
status-only contexts (the real branch never reaches its call sites). -/
def FuseContextToStatus : FuseContextOrStatus → Nat
  | .real _ => STATUS_SUCCESS
  | .status s => s

/-- Modelled from the spec: the pointer value the C code stores for a
context.  A status-only context is encoded as the status code itself; a
real context is a heap allocation, never address zero. -/
def contextPtrIsNull : FuseContextOrStatus → Bool
  | .real _ => false
  | .status s => s == 0

/-- Kind selection shared by FuseContextProcess and FuseContextCreate: a
missing internal request means the reserved/bootstrap kind. -/
def requestKind (ireq : Option FSP_FSCTL_TRANSACT_REQ) : Nat :=
  match ireq with
  | none => FspFsctlTransactReservedKind
  | some r => r.Kind

/-- Kind of a context, as computed at the top of FuseContextProcess. -/
def contextKind (c : FUSE_CONTEXT) : Nat :=
  requestKind c.InternalRequest

/-- Handler contract of the dispatch table: receives the context and the
transient FUSE response/request buffer views, returns the continue flag,
the mutated context and the request buffer it may have written (the
returned buffer is meaningful only when a request buffer was supplied). -/
def FUSE_PROCESS_DISPATCH : Type :=
  FUSE_CONTEXT → Option FUSE_PROTO_RSP → Option FUSE_PROTO_REQ →
    Bool × FUSE_CONTEXT × FUSE_PROTO_REQ

/-- FuseProcessFunction: the dispatch table, indexed by operation kind;
an unset slot is none. -/
def DispatchTable : Type := Nat → Option FUSE_PROCESS_DISPATCH

/-- FuseContextProcess: selects the kind from the context, installs the
transient buffer views and invokes the table slot.  The none branch is
unreachable on the bridge's paths, because contexts are created only for
kinds whose slot is set (FuseContextCreate) or dispatched with the same
kind they were created with. -/
def FuseContextProcess (table : DispatchTable) (c : FUSE_CONTEXT)
    (rsp : Option FUSE_PROTO_RSP) (req : Option FUSE_PROTO_REQ) :
    Bool × FUSE_CONTEXT × FUSE_PROTO_REQ :=
  match table (contextKind c) with
  | some h => h c rsp req
  | none => (false, c, { len := 0 })

/-- Modelled from the spec (correlation queue interface): the FUSE_IOQ
holds the processing set, keyed by correlation id, and the pending set in
FIFO order. -/
structure FUSE_IOQ where
  processing : List (Nat × FUSE_CONTEXT)
  pending : List FUSE_CONTEXT
deriving DecidableEq, Repr

/-- Removes the first processing-set entry with the given correlation id,
returning the removed context (if any) and the remaining entries. -/
def removeFirst : List (Nat × FUSE_CONTEXT) → Nat →
    Option FUSE_CONTEXT × List (Nat × FUSE_CONTEXT)
  | [], _ => (none, [])
  | e :: rest, u =>
    if e.1 = u then (some e.2, rest)
    else
      let r := removeFirst rest u
      (r.1, e :: r.2)

/-- FuseIoqEndProcessing: atomically remove and return the processing-set
context matching the id; an unknown id returns none. -/
def FuseIoqEndProcessing (q : FUSE_IOQ) (u : Nat) :
    Option FUSE_CONTEXT × FUSE_IOQ :=
  let r := removeFirst q.processing u
  (r.1, { q with processing := r.2 })

/-- FuseIoqPostPending: move a context needing another round trip back
into the pending set. -/
def FuseIoqPostPending (q : FUSE_IOQ) (c : FUSE_CONTEXT) : FUSE_IOQ :=
  { q with pending := q.pending ++ [c] }

/-- FuseIoqNextPending: remove and return the oldest pending context. -/
def FuseIoqNextPending (q : FUSE_IOQ) : Option FUSE_CONTEXT × FUSE_IOQ :=
  match q.pending with
  | [] => (none, q)
  | c :: rest => (some c, { q with pending := rest })

/-- FuseIoqStartProcessing: assign the context a fresh correlation id and
move it into the processing set. -/
def FuseIoqStartProcessing (q : FUSE_IOQ) (u : Nat) (c : FUSE_CONTEXT) :
    FUSE_IOQ :=
  { q with processing := q.processing ++ [(u, c)] }

/-- FuseContextCreate: an unset dispatch slot yields the status-only
encoding of STATUS_INVALID_DEVICE_REQUEST; a failed allocation yields the
status-only encoding of STATUS_INSUFFICIENT_RESOURCES; otherwise the
context is zeroed and its embedded internal response initialized with the
request's kind and hint. -/
def FuseContextCreate (table : DispatchTable) (allocOk : Bool)
    (ireq : Option FSP_FSCTL_TRANSACT_REQ) : FuseContextOrStatus :=
  let kind := requestKind ireq
  match table kind with
  | none => .status STATUS_INVALID_DEVICE_REQUEST
  | some _ =>
    if allocOk then
      .real {
        InternalRequest := ireq
        InternalResponse := {
          Size := SIZEOF_FSP_FSCTL_TRANSACT_RSP
          Kind := kind
          Hint := match ireq with | none => 0 | some r => r.Hint
          IoStatus := STATUS_SUCCESS }
        InternalResponseEmbedded := true
        HasFini := false }
    else .status STATUS_INSUFFICIENT_RESOURCES

/-- Observable steps of FuseContextDelete, in execution order. -/
inductive DelEvent where
  | finiCall
  | freeInternalRequest
  | freeSeparateResponse
  | freeContext
deriving DecidableEq, Repr

/-- FuseContextDelete: run the finalize callback if set, free the
internal request if present, free the internal response only when it is
not the embedded buffer, then free the context allocation itself. -/
def FuseContextDelete (c : FUSE_CONTEXT) : List DelEvent :=
  (if c.HasFini then [DelEvent.finiCall] else []) ++
  (if c.InternalRequest.isSome then [DelEvent.freeInternalRequest] else []) ++
  (if c.InternalResponseEmbedded then [] else [DelEvent.freeSeparateResponse]) ++
  [DelEvent.freeContext]

/-- Modelled from the spec: the errno translation table included from
winfuse/errno.i is not under src/; fuse.c switches on Errno over that
closed table and returns STATUS_ACCESS_DENIED in the default case.  The
table is a finite association list from errno to result code. -/
def FuseNtStatusFromErrno (tbl : List (Int × Nat)) (errno : Int) : Nat :=
  match tbl.lookup errno with
  | some s => s
  | none => STATUS_ACCESS_DENIED

/-- Modelled from the spec (side channel and negotiation gate): the
outcomes of the external calls one exchange call can make.
forwardStatus is the result of FuseSendTransactInternalIrp when handed a
response to forward; fetchStatus and fetchReq its result when asked for
the next internal request; waitStatus the result of
FsRtlCancellableWaitForSingleObject on the init event; versionAfterWait
the VersionMajor value re-read after the wait returns; allocOk whether
FuseAlloc succeeds inside FuseContextCreate; nextUnique the correlation
id the queue assigns in FuseIoqStartProcessing. -/
structure Env where
  table : DispatchTable
  allocOk : Bool
  waitStatus : Nat
  versionAfterWait : Nat
  fetchStatus : Nat
  fetchReq : Option FSP_FSCTL_TRANSACT_REQ
  forwardStatus : FSP_FSCTL_TRANSACT_RSP → Nat
  nextUnique : Nat

/-- Observable actions of one FuseDeviceTransact call, in order. -/
inductive Event where
  | dispatch (kind : Nat)
  | postPending
  | startProcessing (unique : Nat)
  | delete (c : FUSE_CONTEXT)
  | forward (rsp : FSP_FSCTL_TRANSACT_RSP)
  | fetch
  | freeInternalRequest
deriving DecidableEq, Repr

/-- Completion phase of FuseDeviceTransact (lines 134-156): look up the
processing-set context by the response's unique id (an unknown id skips
to the request phase), dispatch the response into it, then either re-post
it, delete it without forwarding (no internal request), or forward its
internal response and delete it, aborting the call if forwarding fails.
The first component is some failure status when the call aborts here. -/
def completionPhase (env : Env) (q : FUSE_IOQ) (rsp : FUSE_PROTO_RSP) :
    Option Nat × FUSE_IOQ × List Event :=
  match FuseIoqEndProcessing q rsp.unique with
  | (none, q1) => (none, q1, [])
  | (some ctx, q1) =>
    let pr := FuseContextProcess env.table ctx (some rsp) none
    let evs : List Event := [.dispatch (contextKind ctx)]
    if pr.1 then
      (none, FuseIoqPostPending q1 pr.2.1, evs ++ [.postPending])
    else
      match pr.2.1.InternalRequest with
      | none => (none, q1, evs ++ [.delete pr.2.1])
      | some _ =>
        let r := env.forwardStatus pr.2.1.InternalResponse
        let evs := evs ++ [.forward pr.2.1.InternalResponse, .delete pr.2.1]
        if NT_SUCCESS r then (none, q1, evs) else (some r, q1, evs)

/-- Result of the request phase: call status, output byte count, queue
state and events. -/
structure RPOut where
  status : Nat
  info : Nat
  ioq : FUSE_IOQ
  events : List Event
deriving DecidableEq, Repr

/-- Internal response synthesized for a status-only context (lines
223-227): zeroed, sized, carrying the local internal request's kind and
hint and the context's status. -/
def synthResponse (s : Nat) (ir : FSP_FSCTL_TRANSACT_REQ) :
    FSP_FSCTL_TRANSACT_RSP :=
  { Size := SIZEOF_FSP_FSCTL_TRANSACT_RSP
    Kind := ir.Kind
    Hint := ir.Hint
    IoStatus := s }

/-- Shared tail of the request phase (lines 212-242).  cont and ctx come
from dispatch (or are false and status-only when creation failed);
localIReq is the local InternalRequest variable, still owned here exactly
when the context is status-only.  The source tests
`0 == Context->InternalRequest` before `FuseContextIsStatus(Context)`;
that field test is meaningful only for real contexts (for the
status-pointer encoding of the missing driver.h the status test governs,
per the spec's tagged-variant note), so the sum is matched first. -/
def requestTail (env : Env) (q : FUSE_IOQ) (cont : Bool)
    (ctx : FuseContextOrStatus) (localIReq : Option FSP_FSCTL_TRANSACT_REQ)
    (req : FUSE_PROTO_REQ) (evs : List Event) : RPOut :=
  if cont then
    match ctx with
    | .real c =>
      { status := STATUS_SUCCESS, info := req.len
        ioq := FuseIoqStartProcessing q env.nextUnique c
        events := evs ++ [.startProcessing env.nextUnique] }
    | .status _ =>
      -- unreachable: ASSERT(!FuseContextIsStatus(Context)) under cont
      { status := STATUS_SUCCESS, info := req.len, ioq := q, events := evs }
  else
    match ctx with
    | .real c =>
      match c.InternalRequest with
      | none =>
        -- bootstrap path already handled or ignored; nothing forwarded
        { status := STATUS_SUCCESS, info := req.len, ioq := q, events := evs }
      | some _ =>
        let r := env.forwardStatus c.InternalResponse
        let evs := evs ++ [.forward c.InternalResponse, .delete c]
        if NT_SUCCESS r then
          { status := STATUS_SUCCESS, info := req.len, ioq := q, events := evs }
        else
          { status := r, info := 0, ioq := q, events := evs }
    | .status s =>
      -- status-only contexts arise only on the bootstrap path, where the
      -- fetched internal request is still held in the local variable
      let ir := localIReq.getD { Kind := 0, Hint := 0 }
      let rsp := synthResponse s ir
      let r := env.forwardStatus rsp
      let evs := evs ++ [.forward rsp]
      if NT_SUCCESS r then
        { status := STATUS_SUCCESS, info := req.len, ioq := q, events := evs }
      else
        { status := r, info := 0, ioq := q, events := evs }

/-- Bootstrap path of the request phase (lines 164-207), part two, after
the version gate has opened: fetch of the next internal request, context
creation and dispatch of real contexts; the fetched request is freed at
exit when ownership was not transferred into a real context. -/
def bootstrapPost (env : Env) (q : FUSE_IOQ) (req : FUSE_PROTO_REQ) : RPOut :=
  if NT_SUCCESS env.fetchStatus = false then
    { status := env.fetchStatus, info := 0, ioq := q, events := [.fetch] }
  else
    match env.fetchReq with
    | none =>
      -- idle poll: no more internal requests, zero bytes, success
      { status := STATUS_SUCCESS, info := 0, ioq := q, events := [.fetch] }
    | some ir =>
      match FuseContextCreate env.table env.allocOk (some ir) with
      | .real c =>
        -- ownership of the internal request moves into the context
        let pr := FuseContextProcess env.table c none (some req)
        requestTail env q pr.1 (.real pr.2.1) none pr.2.2
          [.fetch, .dispatch ir.Kind]
      | .status s =>
        let out := requestTail env q false (.status s) (some ir) req [.fetch]
        { out with events := out.events ++ [.freeInternalRequest] }

/-- Bootstrap path of the request phase, part one: the version gate and
the failure-sentinel check, continuing into bootstrapPost. -/
def bootstrap (env : Env) (versionMajor : Nat) (q : FUSE_IOQ)
    (req : FUSE_PROTO_REQ) : RPOut :=
  let gate : Option Nat × Nat :=
    if versionMajor = 0 then
      let r := env.waitStatus
      let r :=
        if r = STATUS_TIMEOUT ∨ r = STATUS_THREAD_IS_TERMINATING then
          STATUS_CANCELLED
        else r
      if NT_SUCCESS r then (none, env.versionAfterWait) else (some r, 0)
    else (none, versionMajor)
  match gate with
  | (some r, _) => { status := r, info := 0, ioq := q, events := [] }
  | (none, v) =>
    if v = UINT32_MAX then
      { status := STATUS_ACCESS_DENIED, info := 0, ioq := q, events := [] }
    else bootstrapPost env q req

/-- Request phase of FuseDeviceTransact (lines 159-243), entered with the
request header zeroed: take the oldest pending context and dispatch it,
or bootstrap when the pending set is empty. -/
def requestPhase (env : Env) (versionMajor : Nat) (q : FUSE_IOQ) : RPOut :=
  let req : FUSE_PROTO_REQ := { len := 0 }
  match FuseIoqNextPending q with
  | (some ctx, q1) =>
    let pr := FuseContextProcess env.table ctx none (some req)
    requestTail env q1 pr.1 (.real pr.2.1) none pr.2.2
      [.dispatch (contextKind ctx)]
  | (none, q1) => bootstrap env versionMajor q1 req

/-- Result of one whole exchange call. -/
structure TransactResult where
  status : Nat
  information : Nat
  ioq : FUSE_IOQ
  events : List Event
deriving DecidableEq, Repr

/-- FuseDeviceTransact: parameter validation, then the completion phase
when an input region is present, then the request phase when an output
region is present.  fuseRsp is the exchange buffer read as a FUSE
response header, meaningful when inputBufferLength is nonzero.  The
information count models Irp->IoStatus.Information, zero on the paths
that never set it. -/
def FuseDeviceTransact (env : Env) (versionMajor : Nat) (q : FUSE_IOQ)
    (inputBufferLength outputBufferLength : Nat) (fuseRsp : FUSE_PROTO_RSP) :
    TransactResult :=
  if inputBufferLength ≠ 0 ∧
      (FUSE_PROTO_RSP_HEADER_SIZE > inputBufferLength ∨
       FUSE_PROTO_RSP_HEADER_SIZE > fuseRsp.len ∨
       fuseRsp.len > inputBufferLength) then
    { status := STATUS_INVALID_PARAMETER, information := 0
      ioq := q, events := [] }
  else if outputBufferLength ≠ 0 ∧ FUSE_PROTO_REQ_SIZEMIN > outputBufferLength then
    { status := STATUS_BUFFER_TOO_SMALL, information := 0
      ioq := q, events := [] }
  else
    let comp : Option Nat × FUSE_IOQ × List Event :=
      if inputBufferLength ≠ 0 then completionPhase env q fuseRsp
      else (none, q, [])
    match comp with
    | (some r, q1, ev1) =>
      { status := r, information := 0, ioq := q1, events := ev1 }
    | (none, q1, ev1) =>
      if outputBufferLength ≠ 0 then
        let out := requestPhase env versionMajor q1
        { status := out.status, information := out.info, ioq := out.ioq
          events := ev1 ++ out.events }
      else
        { status := STATUS_SUCCESS, information := 0, ioq := q1, events := ev1 }

/-! Helper lemmas shared by the claim theorems. -/

/-- A failed lookup leaves the processing list untouched. -/
theorem removeFirst_none (l : List (Nat × FUSE_CONTEXT)) (u : Nat)
    (h : (removeFirst l u).1 = none) : (removeFirst l u).2 = l := by
  induction l with
  | nil => rfl
  | cons e rest ih =>
    by_cases he : e.1 = u
    · simp [removeFirst, he] at h
    · simp only [removeFirst, he, if_false, if_neg he] at h ⊢
      simp only [List.cons.injEq, true_and]
      exact ih h

/-- FuseIoqEndProcessing with an unknown id returns the queue unchanged. -/
theorem endProcessing_none (q : FUSE_IOQ) (u : Nat)
    (h : (FuseIoqEndProcessing q u).1 = none) :
    FuseIoqEndProcessing q u = (none, q) := by
  have h1 : (removeFirst q.processing u).1 = none := h
  have h2 := removeFirst_none q.processing u h1
  unfold FuseIoqEndProcessing
  rw [Prod.ext_iff]
  exact ⟨h1, by simp [h2]⟩

/-- The request tail only appends to the event trace it is given. -/
theorem requestTail_events_prefix (env : Env) (q : FUSE_IOQ) (cont : Bool)
    (ctx : FuseContextOrStatus) (lir : Option FSP_FSCTL_TRANSACT_REQ)
    (req : FUSE_PROTO_REQ) (evs : List Event) :
    ∃ t, (requestTail env q cont ctx lir req evs).events = evs ++ t := by
  cases cont <;> rcases ctx with c | s
  · rcases hci : c.InternalRequest with _ | ir
    · exact ⟨[], by simp [requestTail, hci]⟩
    · refine ⟨[Event.forward c.InternalResponse, Event.delete c], ?_⟩
      simp only [requestTail, hci, Bool.false_eq_true, if_false]
      split <;> simp
  · refine ⟨[Event.forward (synthResponse s (lir.getD { Kind := 0, Hint := 0 }))], ?_⟩
    simp only [requestTail, Bool.false_eq_true, if_false]
    split <;> simp
  · exact ⟨[Event.startProcessing env.nextUnique], by simp [requestTail]⟩
  · exact ⟨[], by simp [requestTail]⟩

/-- Claim C5: a present input region whose response violates the size
bounds (minimum header size above the region length, declared len below
the minimum, or declared len above the region length) fails the call with
STATUS_INVALID_PARAMETER before any state mutation: the queue (in
particular the processing set) is unchanged and the event trace is empty
(no context removed, nothing dispatched, forwarded or deleted). -/
theorem C5_response_validation (env : Env) (v : Nat) (q : FUSE_IOQ)
    (inLen outLen : Nat) (rsp : FUSE_PROTO_RSP)
    (hin : inLen ≠ 0)
    (hbad : FUSE_PROTO_RSP_HEADER_SIZE > inLen ∨
            FUSE_PROTO_RSP_HEADER_SIZE > rsp.len ∨
            rsp.len > inLen) :
    FuseDeviceTransact env v q inLen outLen rsp =
      { status := STATUS_INVALID_PARAMETER, information := 0
        ioq := q, events := [] } := by
  unfold FuseDeviceTransact
  rw [if_pos ⟨hin, hbad⟩]

/-- Claim C5 witness at a concrete malformed response. -/
theorem C5_response_validation_witness :
    FuseDeviceTransact
        { table := fun _ => none, allocOk := true
          waitStatus := STATUS_SUCCESS, versionAfterWait := 7
          fetchStatus := STATUS_SUCCESS, fetchReq := none
          forwardStatus := fun _ => STATUS_SUCCESS, nextUnique := 1 }
        7 { processing := [], pending := [] } 8 0 { len := 8, unique := 0 } =
      { status := STATUS_INVALID_PARAMETER, information := 0
        ioq := { processing := [], pending := [] }, events := [] } :=
  C5_response_validation _ 7 _ 8 0 _ (by decide) (Or.inl (by decide))

/-- Claim C6: a structurally valid response whose unique id matches no
processing-set context does not fail the call: the completion phase
leaves both sets unchanged and produces no events, and the whole call
behaves exactly as the same call with no input region, so its request
phase still runs. -/
theorem C6_unknown_unique (env : Env) (v : Nat) (q : FUSE_IOQ)
    (inLen outLen : Nat) (rsp : FUSE_PROTO_RSP)
    (hin : inLen ≠ 0)
    (hszin : FUSE_PROTO_RSP_HEADER_SIZE ≤ inLen)
    (hlen1 : FUSE_PROTO_RSP_HEADER_SIZE ≤ rsp.len)
    (hlen2 : rsp.len ≤ inLen)
    (hmiss : (FuseIoqEndProcessing q rsp.unique).1 = none) :
    completionPhase env q rsp = (none, q, []) ∧
    FuseDeviceTransact env v q inLen outLen rsp =
      FuseDeviceTransact env v q 0 outLen rsp := by
  have hcomp : completionPhase env q rsp = (none, q, []) := by
    unfold completionPhase
    rw [endProcessing_none q rsp.unique hmiss]
  refine ⟨hcomp, ?_⟩
  unfold FuseDeviceTransact
  have hnotbad : ¬(inLen ≠ 0 ∧
      (FUSE_PROTO_RSP_HEADER_SIZE > inLen ∨
       FUSE_PROTO_RSP_HEADER_SIZE > rsp.len ∨
       rsp.len > inLen)) := by
    rintro ⟨-, hb⟩
    rcases hb with h | h | h <;> omega
  rw [if_neg hnotbad]
  rw [if_neg (by rintro ⟨h0, -⟩; exact h0 rfl :
    ¬((0 : Nat) ≠ 0 ∧
      (FUSE_PROTO_RSP_HEADER_SIZE > 0 ∨
       FUSE_PROTO_RSP_HEADER_SIZE > rsp.len ∨
       rsp.len > 0)))]
  simp [hin, hcomp]

/-- Claim C6 witness: response with unique id 7 against a queue whose only
processing entry has id 5. -/
theorem C6_unknown_unique_witness :
    completionPhase
        { table := fun _ => none, allocOk := true
          waitStatus := STATUS_SUCCESS, versionAfterWait := 7
          fetchStatus := STATUS_SUCCESS, fetchReq := none
          forwardStatus := fun _ => STATUS_SUCCESS, nextUnique := 1 }
        { processing :=
            [(5, { InternalRequest := none
                   InternalResponse :=
                     { Size := 128, Kind := 0, Hint := 0, IoStatus := 0 }
                   InternalResponseEmbedded := true, HasFini := false })]
          pending := [] }
        { len := 16, unique := 7 } =
      (none,
       { processing :=
           [(5, { InternalRequest := none
                  InternalResponse :=
                    { Size := 128, Kind := 0, Hint := 0, IoStatus := 0 }
                  InternalResponseEmbedded := true, HasFini := false })]
         pending := [] }, []) ∧
    FuseDeviceTransact
        { table := fun _ => none, allocOk := true
          waitStatus := STATUS_SUCCESS, versionAfterWait := 7
          fetchStatus := STATUS_SUCCESS, fetchReq := none
          forwardStatus := fun _ => STATUS_SUCCESS, nextUnique := 1 }
        7
        { processing :=
            [(5, { InternalRequest := none
                   InternalResponse :=
                     { Size := 128, Kind := 0, Hint := 0, IoStatus := 0 }
                   InternalResponseEmbedded := true, HasFini := false })]
          pending := [] }
        16 0 { len := 16, unique := 7 } =
      FuseDeviceTransact
        { table := fun _ => none, allocOk := true
          waitStatus := STATUS_SUCCESS, versionAfterWait := 7
          fetchStatus := STATUS_SUCCESS, fetchReq := none
          forwardStatus := fun _ => STATUS_SUCCESS, nextUnique := 1 }
        7
        { processing :=
            [(5, { InternalRequest := none
                   InternalResponse :=
                     { Size := 128, Kind := 0, Hint := 0, IoStatus := 0 }
                   InternalResponseEmbedded := true, HasFini := false })]
          pending := [] }
        0 0 { len := 16, unique := 7 } :=
  C6_unknown_unique _ 7 _ 16 0 _
    (by decide) (by decide) (by decide) (by decide) (by decide)

/-- Claim C7: destroying a real context runs the finalize callback first
and exactly once when one was set and never otherwise, frees the internal
request exactly once when present, frees the internal response exactly
once when it is the separately owned buffer and never when it is the
embedded one, and frees the context allocation exactly once. -/
theorem C7_context_delete (c : FUSE_CONTEXT) :
    (c.HasFini = true →
      (FuseContextDelete c).head? = some DelEvent.finiCall ∧
      (FuseContextDelete c).count DelEvent.finiCall = 1) ∧
    (c.HasFini = false →
      (FuseContextDelete c).count DelEvent.finiCall = 0) ∧
    (∀ ir, c.InternalRequest = some ir →
      (FuseContextDelete c).count DelEvent.freeInternalRequest = 1) ∧
    (c.InternalRequest = none →
      (FuseContextDelete c).count DelEvent.freeInternalRequest = 0) ∧
    (c.InternalResponseEmbedded = false →
      (FuseContextDelete c).count DelEvent.freeSeparateResponse = 1) ∧
    (c.InternalResponseEmbedded = true →
      (FuseContextDelete c).count DelEvent.freeSeparateResponse = 0) ∧
    (FuseContextDelete c).count DelEvent.freeContext = 1 := by
  obtain ⟨ireq, irsp, emb, fini⟩ := c
  cases fini <;> cases emb <;> cases ireq <;>
    simp [FuseContextDelete]

/-- Claim C7 witness: a context with finalize callback, owned internal
request and separately owned internal response. -/
theorem C7_context_delete_witness :
    (FuseContextDelete
        { InternalRequest := some { Kind := 1, Hint := 2 }
          InternalResponse := { Size := 128, Kind := 1, Hint := 2, IoStatus := 0 }
          InternalResponseEmbedded := false
          HasFini := true }).head? = some DelEvent.finiCall ∧
    (FuseContextDelete
        { InternalRequest := some { Kind := 1, Hint := 2 }
          InternalResponse := { Size := 128, Kind := 1, Hint := 2, IoStatus := 0 }
          InternalResponseEmbedded := false
          HasFini := true }).count DelEvent.finiCall = 1 ∧
    (FuseContextDelete
        { InternalRequest := some { Kind := 1, Hint := 2 }
          InternalResponse := { Size := 128, Kind := 1, Hint := 2, IoStatus := 0 }
          InternalResponseEmbedded := false
          HasFini := true }).count DelEvent.freeInternalRequest = 1 ∧
    (FuseContextDelete
        { InternalRequest := some { Kind := 1, Hint := 2 }
          InternalResponse := { Size := 128, Kind := 1, Hint := 2, IoStatus := 0 }
          InternalResponseEmbedded := false
          HasFini := true }).count DelEvent.freeSeparateResponse = 1 ∧
    (FuseContextDelete
        { InternalRequest := some { Kind := 1, Hint := 2 }
          InternalResponse := { Size := 128, Kind := 1, Hint := 2, IoStatus := 0 }
          InternalResponseEmbedded := false
          HasFini := true }).count DelEvent.freeContext = 1 := by
  have h := C7_context_delete
    { InternalRequest := some { Kind := 1, Hint := 2 }
      InternalResponse := { Size := 128, Kind := 1, Hint := 2, IoStatus := 0 }
      InternalResponseEmbedded := false
      HasFini := true }
  exact ⟨(h.1 rfl).1, (h.1 rfl).2, h.2.2.1 _ rfl, h.2.2.2.2.1 rfl,
    h.2.2.2.2.2.2⟩

/-- Claim C8: the status translator is a pure total function: an errno in
the table maps to the table's result code, an errno outside the table
maps to STATUS_ACCESS_DENIED. -/
theorem C8_errno_translation (tbl : List (Int × Nat)) (e : Int) :
    (∀ s, tbl.lookup e = some s → FuseNtStatusFromErrno tbl e = s) ∧
    (tbl.lookup e = none →
      FuseNtStatusFromErrno tbl e = STATUS_ACCESS_DENIED) := by
  constructor
  · intro s h
    simp [FuseNtStatusFromErrno, h]
  · intro h
    simp [FuseNtStatusFromErrno, h]

/-- Claim C8 witness: a two-entry table, one hit and one miss (a
never-assigned negative errno). -/
theorem C8_errno_translation_witness :
    FuseNtStatusFromErrno [((2 : Int), 0xC0000034), ((13 : Int), STATUS_ACCESS_DENIED)] 2 =
      0xC0000034 ∧
    FuseNtStatusFromErrno [((2 : Int), 0xC0000034), ((13 : Int), STATUS_ACCESS_DENIED)] (-9999) =
      STATUS_ACCESS_DENIED :=
  ⟨(C8_errno_translation [((2 : Int), 0xC0000034), ((13 : Int), STATUS_ACCESS_DENIED)] 2).1
      _ (by decide),
   (C8_errno_translation [((2 : Int), 0xC0000034), ((13 : Int), STATUS_ACCESS_DENIED)] (-9999)).2
      (by decide)⟩

/-- Claim C9: context creation is total and never yields a null pointer:
for any table, allocation outcome and internal request (present or not,
supported or not) the result is a real context or one of the two nonzero
status encodings (invalid device request, insufficient resources), so the
bridge's ASSERT(0 != Context) always holds. -/
theorem C9_create_never_null (table : DispatchTable) (allocOk : Bool)
    (ireq : Option FSP_FSCTL_TRANSACT_REQ) :
    contextPtrIsNull (FuseContextCreate table allocOk ireq) = false ∧
    ((∃ c, FuseContextCreate table allocOk ireq = .real c) ∨
     FuseContextCreate table allocOk ireq =
       .status STATUS_INVALID_DEVICE_REQUEST ∨
     FuseContextCreate table allocOk ireq =
       .status STATUS_INSUFFICIENT_RESOURCES) := by
  cases h : table (requestKind ireq) with
  | none =>
    have hc : FuseContextCreate table allocOk ireq =
        .status STATUS_INVALID_DEVICE_REQUEST := by
      simp [FuseContextCreate, h]
    rw [hc]
    exact ⟨by decide, Or.inr (Or.inl rfl)⟩
  | some f =>
    cases allocOk with
    | false =>
      have hc : FuseContextCreate table false ireq =
          .status STATUS_INSUFFICIENT_RESOURCES := by
        simp [FuseContextCreate, h]
      rw [hc]
      exact ⟨by decide, Or.inr (Or.inr rfl)⟩
    | true =>
      have hc : FuseContextCreate table true ireq =
          .real { InternalRequest := ireq
                  InternalResponse :=
                    { Size := SIZEOF_FSP_FSCTL_TRANSACT_RSP
                      Kind := requestKind ireq
                      Hint := match ireq with | none => 0 | some r => r.Hint
                      IoStatus := STATUS_SUCCESS }
                  InternalResponseEmbedded := true
                  HasFini := false } := by
        simp only [FuseContextCreate, h]
        cases ireq <;> rfl
      rw [hc]
      exact ⟨rfl, Or.inl ⟨_, rfl⟩⟩

/-- With an empty pending set the request phase is exactly the bootstrap
path on the zeroed request header. -/
theorem requestPhase_empty (env : Env) (v : Nat) (q : FUSE_IOQ)
    (hpend : q.pending = []) :
    requestPhase env v q = bootstrap env v q { len := 0 } := by
  simp [requestPhase, FuseIoqNextPending, hpend]

/-- Every path of the post-gate bootstrap makes the fetch call. -/
theorem bootstrapPost_fetch_mem (env : Env) (q : FUSE_IOQ)
    (req : FUSE_PROTO_REQ) :
    Event.fetch ∈ (bootstrapPost env q req).events := by
  unfold bootstrapPost
  by_cases hf : NT_SUCCESS env.fetchStatus = false
  · simp [hf]
  · rw [Bool.not_eq_false] at hf
    rcases hr : env.fetchReq with _ | ir
    · simp [hf, hr]
    · rcases hc : FuseContextCreate env.table env.allocOk (some ir) with c | s
      · simp only [hf, hr, hc, Bool.true_eq_false, if_false]
        obtain ⟨t, ht⟩ := requestTail_events_prefix env q
          (FuseContextProcess env.table c none (some req)).1
          (.real (FuseContextProcess env.table c none (some req)).2.1) none
          (FuseContextProcess env.table c none (some req)).2.2
          [.fetch, .dispatch ir.Kind]
        rw [ht]
        simp
      · simp only [hf, hr, hc, Bool.true_eq_false, if_false]
        obtain ⟨t, ht⟩ := requestTail_events_prefix env q false
          (.status s) (some ir) req [.fetch]
        simp only [ht]
        simp

/-- Post-gate bootstrap when context creation yields a status-only
context: a single synthesized response carrying the status is forwarded
(no dispatch, no delete), the fetched request is freed at exit, the queue
is untouched, and a forwarding failure becomes the result. -/
theorem bootstrap_status_only (env : Env) (v : Nat) (q : FUSE_IOQ)
    (req : FUSE_PROTO_REQ) (ir : FSP_FSCTL_TRANSACT_REQ) (s : Nat)
    (hv0 : v ≠ 0) (hvbad : v ≠ UINT32_MAX)
    (hfetch : NT_SUCCESS env.fetchStatus = true)
    (hreq : env.fetchReq = some ir)
    (hstat : FuseContextCreate env.table env.allocOk (some ir) = .status s) :
    bootstrap env v q req =
      { status :=
          if NT_SUCCESS (env.forwardStatus (synthResponse s ir)) then
            STATUS_SUCCESS
          else env.forwardStatus (synthResponse s ir)
        info :=
          if NT_SUCCESS (env.forwardStatus (synthResponse s ir)) then
            req.len
          else 0
        ioq := q
        events := [Event.fetch, Event.forward (synthResponse s ir),
                   Event.freeInternalRequest] } := by
  by_cases hnt : NT_SUCCESS (env.forwardStatus (synthResponse s ir)) = true
  · simp [bootstrap, bootstrapPost, requestTail, hv0, hvbad, hfetch, hreq,
      hstat, hnt]
  · rw [Bool.not_eq_true] at hnt
    simp [bootstrap, bootstrapPost, requestTail, hv0, hvbad, hfetch, hreq,
      hstat, hnt]

/-- A completion-phase abort is the result of the whole exchange call. -/
theorem transact_completion_abort (env : Env) (v : Nat) (q q1 : FUSE_IOQ)
    (rsp : FUSE_PROTO_RSP) (r : Nat) (evs : List Event)
    (inLen outLen : Nat)
    (hin : inLen ≠ 0)
    (hszin : FUSE_PROTO_RSP_HEADER_SIZE ≤ inLen)
    (hlen1 : FUSE_PROTO_RSP_HEADER_SIZE ≤ rsp.len)
    (hlen2 : rsp.len ≤ inLen)
    (hout : outLen = 0 ∨ FUSE_PROTO_REQ_SIZEMIN ≤ outLen)
    (hcomp : completionPhase env q rsp = (some r, q1, evs)) :
    FuseDeviceTransact env v q inLen outLen rsp =
      { status := r, information := 0, ioq := q1, events := evs } := by
  unfold FuseDeviceTransact
  have hnotbad : ¬(inLen ≠ 0 ∧
      (FUSE_PROTO_RSP_HEADER_SIZE > inLen ∨
       FUSE_PROTO_RSP_HEADER_SIZE > rsp.len ∨
       rsp.len > inLen)) := by
    rintro ⟨-, hb⟩
    rcases hb with h | h | h <;> omega
  have hnotsmall : ¬(outLen ≠ 0 ∧ FUSE_PROTO_REQ_SIZEMIN > outLen) := by
    rintro ⟨h0, hs⟩
    rcases hout with h | h
    · exact h0 h
    · omega
  rw [if_neg hnotbad, if_neg hnotsmall, if_pos hin, hcomp]

/-- A call with no input region is exactly the request phase. -/
theorem transact_no_input (env : Env) (v : Nat) (q : FUSE_IOQ)
    (outLen : Nat) (rsp : FUSE_PROTO_RSP)
    (hout0 : outLen ≠ 0) (houts : FUSE_PROTO_REQ_SIZEMIN ≤ outLen) :
    FuseDeviceTransact env v q 0 outLen rsp =
      { status := (requestPhase env v q).status
        information := (requestPhase env v q).info
        ioq := (requestPhase env v q).ioq
        events := (requestPhase env v q).events } := by
  unfold FuseDeviceTransact
  have h1 : ¬((0 : Nat) ≠ 0 ∧
      (FUSE_PROTO_RSP_HEADER_SIZE > 0 ∨
       FUSE_PROTO_RSP_HEADER_SIZE > rsp.len ∨
       rsp.len > 0)) := by
    rintro ⟨h, -⟩
    exact h rfl
  have h2 : ¬(outLen ≠ 0 ∧ FUSE_PROTO_REQ_SIZEMIN > outLen) := by
    rintro ⟨-, hs⟩
    omega
  rw [if_neg h1, if_neg h2]
  simp [hout0]

/-- Claim C1: in the completion phase, when the response matches a
processing-set context, the bridge routes by the handler's return value:
continue=true re-posts the context to the pending set; otherwise a
context with no internal request (bootstrap path) is destroyed with no
forwarding; otherwise the context's internal response is forwarded to the
host framework and the context destroyed, and a forwarding failure
becomes the failure result of the whole exchange call. -/
theorem C1_completion_routing (env : Env) (v : Nat) (q q1 : FUSE_IOQ)
    (rsp : FUSE_PROTO_RSP) (ctx ctx' : FUSE_CONTEXT) (cont : Bool)
    (req' : FUSE_PROTO_REQ)
    (hend : FuseIoqEndProcessing q rsp.unique = (some ctx, q1))
    (hpr : FuseContextProcess env.table ctx (some rsp) none =
      (cont, ctx', req')) :
    (cont = true →
      completionPhase env q rsp =
        (none, FuseIoqPostPending q1 ctx',
         [Event.dispatch (contextKind ctx), Event.postPending])) ∧
    (cont = false → ctx'.InternalRequest = none →
      completionPhase env q rsp =
        (none, q1, [Event.dispatch (contextKind ctx), Event.delete ctx'])) ∧
    (cont = false → ctx'.InternalRequest ≠ none →
      (NT_SUCCESS (env.forwardStatus ctx'.InternalResponse) = true →
        completionPhase env q rsp =
          (none, q1,
           [Event.dispatch (contextKind ctx),
            Event.forward ctx'.InternalResponse, Event.delete ctx'])) ∧
      (NT_SUCCESS (env.forwardStatus ctx'.InternalResponse) = false →
        completionPhase env q rsp =
          (some (env.forwardStatus ctx'.InternalResponse), q1,
           [Event.dispatch (contextKind ctx),
            Event.forward ctx'.InternalResponse, Event.delete ctx']) ∧
        ∀ inLen outLen : Nat, inLen ≠ 0 →
          FUSE_PROTO_RSP_HEADER_SIZE ≤ inLen →
          FUSE_PROTO_RSP_HEADER_SIZE ≤ rsp.len → rsp.len ≤ inLen →
          (outLen = 0 ∨ FUSE_PROTO_REQ_SIZEMIN ≤ outLen) →
          (FuseDeviceTransact env v q inLen outLen rsp).status =
            env.forwardStatus ctx'.InternalResponse)) := by
  refine ⟨?_, ?_, ?_⟩
  · intro hcont
    subst hcont
    simp [completionPhase, hend, hpr]
  · intro hcont hnone
    subst hcont
    simp [completionPhase, hend, hpr, hnone]
  · intro hcont hsome
    subst hcont
    rcases hx : ctx'.InternalRequest with _ | ir
    · exact absurd hx hsome
    constructor
    · intro hnt
      simp [completionPhase, hend, hpr, hx, hnt]
    · intro hnt
      have hcompEq : completionPhase env q rsp =
          (some (env.forwardStatus ctx'.InternalResponse), q1,
           [Event.dispatch (contextKind ctx),
            Event.forward ctx'.InternalResponse, Event.delete ctx']) := by
        simp [completionPhase, hend, hpr, hx, hnt]
      refine ⟨hcompEq, ?_⟩
      intro inLen outLen h1 h2 h3 h4 h5
      rw [transact_completion_abort env v q q1 rsp _ _ inLen outLen
        h1 h2 h3 h4 h5 hcompEq]

/-- Claim C2: in the request phase, a context that does not continue and
has an internal request gets its own internal response forwarded and is
then destroyed; a status-only context gets a synthesized internal
response carrying its status forwarded instead; a forwarding failure
aborts the exchange call with that failure. -/
theorem C2_request_forwarding (env : Env) (v : Nat) (q : FUSE_IOQ)
    (c c' : FUSE_CONTEXT) (rest : List FUSE_CONTEXT) (req' : FUSE_PROTO_REQ)
    (hpend : q.pending = c :: rest)
    (hpr : FuseContextProcess env.table c none (some { len := 0 }) =
      (false, c', req'))
    (hir : c'.InternalRequest ≠ none) :
    (requestPhase env v q =
      if NT_SUCCESS (env.forwardStatus c'.InternalResponse) then
        { status := STATUS_SUCCESS, info := req'.len
          ioq := { q with pending := rest }
          events := [Event.dispatch (contextKind c),
                     Event.forward c'.InternalResponse, Event.delete c'] }
      else
        { status := env.forwardStatus c'.InternalResponse, info := 0
          ioq := { q with pending := rest }
          events := [Event.dispatch (contextKind c),
                     Event.forward c'.InternalResponse, Event.delete c'] }) ∧
    (∀ s : Nat, ∀ lir : FSP_FSCTL_TRANSACT_REQ, ∀ req0 : FUSE_PROTO_REQ,
      ∀ q0 : FUSE_IOQ, ∀ evs : List Event,
      requestTail env q0 false (.status s) (some lir) req0 evs =
        if NT_SUCCESS (env.forwardStatus (synthResponse s lir)) then
          { status := STATUS_SUCCESS, info := req0.len, ioq := q0
            events := evs ++ [Event.forward (synthResponse s lir)] }
        else
          { status := env.forwardStatus (synthResponse s lir), info := 0
            ioq := q0
            events := evs ++ [Event.forward (synthResponse s lir)] }) ∧
    (NT_SUCCESS (env.forwardStatus c'.InternalResponse) = false →
      ∀ outLen : Nat, ∀ rsp0 : FUSE_PROTO_RSP, outLen ≠ 0 →
        FUSE_PROTO_REQ_SIZEMIN ≤ outLen →
        (FuseDeviceTransact env v q 0 outLen rsp0).status =
          env.forwardStatus c'.InternalResponse) := by
  rcases hx : c'.InternalRequest with _ | ir
  · exact absurd hx hir
  have h1 : requestPhase env v q =
      requestTail env { q with pending := rest } false (.real c') none req'
        [Event.dispatch (contextKind c)] := by
    simp [requestPhase, FuseIoqNextPending, hpend, hpr]
  have h2 : requestTail env { q with pending := rest } false (.real c') none
      req' [Event.dispatch (contextKind c)] =
      if NT_SUCCESS (env.forwardStatus c'.InternalResponse) then
        { status := STATUS_SUCCESS, info := req'.len
          ioq := { q with pending := rest }
          events := [Event.dispatch (contextKind c),
                     Event.forward c'.InternalResponse, Event.delete c'] }
      else
        { status := env.forwardStatus c'.InternalResponse, info := 0
          ioq := { q with pending := rest }
          events := [Event.dispatch (contextKind c),
                     Event.forward c'.InternalResponse, Event.delete c'] } := by
    by_cases hnt : NT_SUCCESS (env.forwardStatus c'.InternalResponse) = true
    · simp [requestTail, hx, hnt]
    · rw [Bool.not_eq_true] at hnt
      simp [requestTail, hx, hnt]
  refine ⟨h1.trans h2, ?_, ?_⟩
  · intro s lir req0 q0 evs
    by_cases hnt : NT_SUCCESS (env.forwardStatus (synthResponse s lir)) = true
    · simp [requestTail, hnt, synthResponse]
    · rw [Bool.not_eq_true] at hnt
      simp [requestTail, hnt, synthResponse]
  · intro hnt outLen rsp0 ho1 ho2
    rw [transact_no_input env v q outLen rsp0 ho1 ho2]
    simp [h1.trans h2, hnt]

/-- Claim C3: with the pending set empty, a request-phase call reading
protocol version 0 waits on the init gate; a cancellation or timeout of
that wait fails the call with STATUS_CANCELLED (not success) before any
fetch; after a successful wait the re-read version governs; the failure
sentinel version fails the call with STATUS_ACCESS_DENIED before any
internal request is fetched. -/
theorem C3_version_gate (env : Env) (q : FUSE_IOQ)
    (hpend : q.pending = []) :
    ((env.waitStatus = STATUS_CANCELLED ∨ env.waitStatus = STATUS_TIMEOUT) →
      requestPhase env 0 q =
        { status := STATUS_CANCELLED, info := 0, ioq := q, events := [] }) ∧
    (env.waitStatus = STATUS_SUCCESS → env.versionAfterWait = UINT32_MAX →
      requestPhase env 0 q =
        { status := STATUS_ACCESS_DENIED, info := 0, ioq := q, events := [] }) ∧
    (env.waitStatus = STATUS_SUCCESS → env.versionAfterWait ≠ UINT32_MAX →
      Event.fetch ∈ (requestPhase env 0 q).events) ∧
    (∀ v : Nat, v = UINT32_MAX →
      requestPhase env v q =
        { status := STATUS_ACCESS_DENIED, info := 0, ioq := q, events := [] }) := by
  refine ⟨?_, ?_, ?_, ?_⟩
  · intro hw
    rw [requestPhase_empty env 0 q hpend]
    rcases hw with h | h <;>
      simp [bootstrap, h, STATUS_CANCELLED, STATUS_TIMEOUT,
        STATUS_THREAD_IS_TERMINATING, NT_SUCCESS]
  · intro hw hva
    rw [requestPhase_empty env 0 q hpend]
    simp [bootstrap, hw, hva, STATUS_SUCCESS, STATUS_TIMEOUT,
      STATUS_THREAD_IS_TERMINATING, NT_SUCCESS]
  · intro hw hva
    rw [requestPhase_empty env 0 q hpend]
    have hx : bootstrap env 0 q { len := 0 } =
        bootstrapPost env q { len := 0 } := by
      simp [bootstrap, hw, hva, STATUS_SUCCESS, STATUS_TIMEOUT,
        STATUS_THREAD_IS_TERMINATING, NT_SUCCESS]
    rw [hx]
    exact bootstrapPost_fetch_mem env q { len := 0 }
  · intro v hv
    subst hv
    rw [requestPhase_empty env UINT32_MAX q hpend]
    simp [bootstrap, UINT32_MAX]

/-- Claim C4: an internal request whose kind has no dispatch-table
handler, or a context allocation failure, yields a status-only context
(invalid device request, insufficient resources respectively); no handler
is dispatched for it and no partial state is created (the queue is
unchanged); the failure is delivered to the host framework as a completed
failed internal response carrying the request's kind and hint, and when
that forwarding succeeds the exchange call itself succeeds. -/
theorem C4_status_only_failures (env : Env) (v : Nat) (q : FUSE_IOQ)
    (ir : FSP_FSCTL_TRANSACT_REQ)
    (hpend : q.pending = [])
    (hv0 : v ≠ 0) (hvbad : v ≠ UINT32_MAX)
    (hfetch : NT_SUCCESS env.fetchStatus = true)
    (hreq : env.fetchReq = some ir) :
    (env.table ir.Kind = none →
      FuseContextCreate env.table env.allocOk (some ir) =
        .status STATUS_INVALID_DEVICE_REQUEST ∧
      (synthResponse STATUS_INVALID_DEVICE_REQUEST ir).Kind = ir.Kind ∧
      (synthResponse STATUS_INVALID_DEVICE_REQUEST ir).Hint = ir.Hint ∧
      requestPhase env v q =
        { status :=
            if NT_SUCCESS (env.forwardStatus
                (synthResponse STATUS_INVALID_DEVICE_REQUEST ir)) then
              STATUS_SUCCESS
            else env.forwardStatus
              (synthResponse STATUS_INVALID_DEVICE_REQUEST ir)
          info := 0
          ioq := q
          events := [Event.fetch,
                     Event.forward (synthResponse STATUS_INVALID_DEVICE_REQUEST ir),
                     Event.freeInternalRequest] }) ∧
    (∀ f : FUSE_PROCESS_DISPATCH, env.table ir.Kind = some f →
      env.allocOk = false →
      FuseContextCreate env.table env.allocOk (some ir) =
        .status STATUS_INSUFFICIENT_RESOURCES ∧
      (synthResponse STATUS_INSUFFICIENT_RESOURCES ir).Kind = ir.Kind ∧
      (synthResponse STATUS_INSUFFICIENT_RESOURCES ir).Hint = ir.Hint ∧
      requestPhase env v q =
        { status :=
            if NT_SUCCESS (env.forwardStatus
                (synthResponse STATUS_INSUFFICIENT_RESOURCES ir)) then
              STATUS_SUCCESS
            else env.forwardStatus
              (synthResponse STATUS_INSUFFICIENT_RESOURCES ir)
          info := 0
          ioq := q
          events := [Event.fetch,
                     Event.forward (synthResponse STATUS_INSUFFICIENT_RESOURCES ir),
                     Event.freeInternalRequest] }) := by
  constructor
  · intro htable
    have hc : FuseContextCreate env.table env.allocOk (some ir) =
        .status STATUS_INVALID_DEVICE_REQUEST := by
      simp [FuseContextCreate, requestKind, htable]
    refine ⟨hc, rfl, rfl, ?_⟩
    rw [requestPhase_empty env v q hpend,
      bootstrap_status_only env v q { len := 0 } ir _ hv0 hvbad hfetch hreq hc]
    simp
  · intro f htable halloc
    have hc : FuseContextCreate env.table env.allocOk (some ir) =
        .status STATUS_INSUFFICIENT_RESOURCES := by
      simp [FuseContextCreate, requestKind, htable, halloc]
    refine ⟨hc, rfl, rfl, ?_⟩
    rw [requestPhase_empty env v q hpend,
      bootstrap_status_only env v q { len := 0 } ir _ hv0 hvbad hfetch hreq hc]
    simp

/-- Claim C10: when the bootstrap path yields a status-only context, no
handler is ever dispatched, the request header stays zeroed, and the
exchange call reports exactly zero output bytes. -/
theorem C10_status_only_zero_output (env : Env) (v : Nat) (q : FUSE_IOQ)
    (ir : FSP_FSCTL_TRANSACT_REQ) (s : Nat)
    (hpend : q.pending = [])
    (hv0 : v ≠ 0) (hvbad : v ≠ UINT32_MAX)
    (hfetch : NT_SUCCESS env.fetchStatus = true)
    (hreq : env.fetchReq = some ir)
    (hstat : FuseContextCreate env.table env.allocOk (some ir) = .status s) :
    (∀ k : Nat, Event.dispatch k ∉ (requestPhase env v q).events) ∧
    (requestPhase env v q).info = 0 ∧
    (NT_SUCCESS (env.forwardStatus (synthResponse s ir)) = true →
      (requestPhase env v q).status = STATUS_SUCCESS) ∧
    (∀ outLen : Nat, ∀ rsp0 : FUSE_PROTO_RSP, outLen ≠ 0 →
      FUSE_PROTO_REQ_SIZEMIN ≤ outLen →
      (FuseDeviceTransact env v q 0 outLen rsp0).information =
        (requestPhase env v q).info) := by
  have hmain : requestPhase env v q =
      { status :=
          if NT_SUCCESS (env.forwardStatus (synthResponse s ir)) then
            STATUS_SUCCESS
          else env.forwardStatus (synthResponse s ir)
        info :=
          if NT_SUCCESS (env.forwardStatus (synthResponse s ir)) then
            (({ len := 0 } : FUSE_PROTO_REQ)).len
          else 0
        ioq := q
        events := [Event.fetch, Event.forward (synthResponse s ir),
                   Event.freeInternalRequest] } :=
    (requestPhase_empty env v q hpend).trans
      (bootstrap_status_only env v q { len := 0 } ir s hv0 hvbad hfetch hreq hstat)
  refine ⟨?_, ?_, ?_, ?_⟩
  · intro k
    rw [hmain]
    simp
  · rw [hmain]
    simp
  · intro hnt
    rw [hmain]
    simp [hnt]
  · intro outLen rsp0 ho1 ho2
    rw [transact_no_input env v q outLen rsp0 ho1 ho2]

/-! Concrete fixtures used by the witness theorems. -/

/-- Fixture: a real context holding an internal request of kind 0. -/
def ctxFix : FUSE_CONTEXT :=
  { InternalRequest := some { Kind := 0, Hint := 3 }
    InternalResponse := { Size := 128, Kind := 0, Hint := 3, IoStatus := 0 }
    InternalResponseEmbedded := true
    HasFini := false }

/-- Fixture: a dispatch table whose slot 0 always requests continuation. -/
def tableCont : DispatchTable :=
  fun k => if k = 0 then some (fun c _ _ => (true, c, { len := 0 })) else none

/-- Fixture: a dispatch table whose slot 0 completes at once, writing a
48-byte FUSE request. -/
def tableDone : DispatchTable :=
  fun k => if k = 0 then some (fun c _ _ => (false, c, { len := 48 })) else none

/-- Fixture environment: everything external succeeds. -/
def envCont : Env :=
  { table := tableCont, allocOk := true, waitStatus := STATUS_SUCCESS
    versionAfterWait := 7, fetchStatus := STATUS_SUCCESS, fetchReq := none
    forwardStatus := fun _ => STATUS_SUCCESS, nextUnique := 9 }

/-- Fixture environment with the immediately completing handler. -/
def envDone : Env := { envCont with table := tableDone }

/-- Fixture environment whose gate wait is cancelled. -/
def envCancel : Env := { envCont with waitStatus := STATUS_CANCELLED }

/-- Fixture environment with an empty table and one fetchable request of
kind 3 (so creation hits the unsupported-kind path). -/
def envNoKind : Env :=
  { envCont with
    table := fun _ => none
    fetchReq := some { Kind := 3, Hint := 4 } }

/-- Fixture: the empty queue. -/
def qEmpty : FUSE_IOQ := { processing := [], pending := [] }

/-- Claim C1 witness: a matching response whose handler continues; the
context is re-posted to the pending set. -/
theorem C1_completion_routing_witness :
    completionPhase envCont { processing := [(5, ctxFix)], pending := [] }
        { len := 16, unique := 5 } =
      (none, FuseIoqPostPending qEmpty ctxFix,
       [Event.dispatch (contextKind ctxFix), Event.postPending]) :=
  (C1_completion_routing envCont 0
      { processing := [(5, ctxFix)], pending := [] } qEmpty
      { len := 16, unique := 5 } ctxFix ctxFix true { len := 0 }
      (by decide) (by decide)).1 rfl

/-- Claim C2 witness: a pending context whose handler completes at once;
its internal response is forwarded and it is deleted. -/
theorem C2_request_forwarding_witness :
    requestPhase envDone 0 { processing := [], pending := [ctxFix] } =
      if NT_SUCCESS (envDone.forwardStatus ctxFix.InternalResponse) then
        { status := STATUS_SUCCESS, info := (48 : Nat)
          ioq := { processing := [], pending := [] }
          events := [Event.dispatch (contextKind ctxFix),
                     Event.forward ctxFix.InternalResponse,
                     Event.delete ctxFix] }
      else
        { status := envDone.forwardStatus ctxFix.InternalResponse, info := 0
          ioq := { processing := [], pending := [] }
          events := [Event.dispatch (contextKind ctxFix),
                     Event.forward ctxFix.InternalResponse,
                     Event.delete ctxFix] } := by
  exact (C2_request_forwarding envDone 0
      { processing := [], pending := [ctxFix] } ctxFix ctxFix []
      { len := 48 } rfl (by decide) (by decide)).1

/-- Claim C3 witness: pending set empty, version 0, wait cancelled; the
call fails with STATUS_CANCELLED and nothing is fetched. -/
theorem C3_version_gate_witness :
    requestPhase envCancel 0 qEmpty =
      { status := STATUS_CANCELLED, info := 0, ioq := qEmpty, events := [] } :=
  (C3_version_gate envCancel qEmpty rfl).1 (Or.inl rfl)

/-- Claim C4 witness: a fetched request of kind 3 against an empty table;
creation yields the invalid-device-request status-only context and the
synthesized failed response is forwarded while the call succeeds. -/
theorem C4_status_only_failures_witness :
    FuseContextCreate envNoKind.table envNoKind.allocOk
        (some { Kind := 3, Hint := 4 }) =
      .status STATUS_INVALID_DEVICE_REQUEST ∧
    requestPhase envNoKind 7 qEmpty =
      { status :=
          if NT_SUCCESS (envNoKind.forwardStatus
              (synthResponse STATUS_INVALID_DEVICE_REQUEST
                { Kind := 3, Hint := 4 })) then
            STATUS_SUCCESS
          else envNoKind.forwardStatus
            (synthResponse STATUS_INVALID_DEVICE_REQUEST
              { Kind := 3, Hint := 4 })
        info := 0
        ioq := qEmpty
        events := [Event.fetch,
                   Event.forward (synthResponse STATUS_INVALID_DEVICE_REQUEST
                     { Kind := 3, Hint := 4 }),
                   Event.freeInternalRequest] } := by
  have h := (C4_status_only_failures envNoKind 7 qEmpty { Kind := 3, Hint := 4 }
      rfl (by decide) (by decide) (by decide) rfl).1 rfl
  exact ⟨h.1, h.2.2.2⟩

/-- Claim C10 witness: the unsupported-kind bootstrap reports zero output
bytes, succeeds, and never dispatches a handler. -/
theorem C10_status_only_zero_output_witness :
    (requestPhase envNoKind 7 qEmpty).info = 0 ∧
    (requestPhase envNoKind 7 qEmpty).status = STATUS_SUCCESS ∧
    Event.dispatch 3 ∉ (requestPhase envNoKind 7 qEmpty).events := by
  have h := C10_status_only_zero_output envNoKind 7 qEmpty
      { Kind := 3, Hint := 4 } STATUS_INVALID_DEVICE_REQUEST
      rfl (by decide) (by decide) (by decide) rfl (by decide)
  exact ⟨h.2.1, h.2.2.1 (by decide), h.1 3⟩

end WinFuse
